import Mathlib

/-!
Shallow embedding of the homesecurityFrontend admin console
(src/lib/api.ts, src/ui/App.tsx, src/ui/MapPreview.tsx, src/lib/fingerprint).

JavaScript values are modelled as follows: `string` becomes `String`,
`number` coordinates become `Rat` (the claims only exercise exact small
values; JS truthiness of a number x is modelled as x ≠ 0), optional /
possibly-`undefined` fields become `Option`, and `localStorage` becomes a
total map `String → Option String`.  React `useState` cells are gathered
into one `AppState` record; a `setX(v)` call is a functional update of the
corresponding field.  `async` functions are split at their `await` points
into a synchronous prefix and a continuation applied to the (`Except`-
modelled) result of the awaited call.
-/

namespace HomeSecurity

/-! ### localStorage and the session store (src/lib/api.ts lines 3-10) -/

/-- Model of the browser `localStorage`: a total map from keys to optional
string values (`getItem` returns `null` for an absent key). -/
def Store : Type := String → Option String

/-- Model of `localStorage.getItem`. -/
def Store.getItem (s : Store) (k : String) : Option String := s k

/-- Model of `localStorage.setItem`. -/
def Store.setItem (s : Store) (k v : String) : Store :=
  fun k2 => if k2 = k then some v else s k2

/-- Model of `localStorage.removeItem`. -/
def Store.removeItem (s : Store) (k : String) : Store :=
  fun k2 => if k2 = k then none else s k2

/-- Embedding of `getToken` (api.ts line 3):
`return localStorage.getItem("adminToken")`. -/
def getToken (s : Store) : Option String := s.getItem "adminToken"

/-- Embedding of `setToken` (api.ts line 7):
`if (!token) localStorage.removeItem("adminToken"); else localStorage.setItem("adminToken", token)`.
JS truthiness: `!token` is true for `null` and for the empty string, so
`some ""` removes the item rather than storing `""`. -/
def setToken (s : Store) (token : Option String) : Store :=
  match token with
  | none => s.removeItem "adminToken"
  | some t => if t = "" then s.removeItem "adminToken" else s.setItem "adminToken" t

/-! ### The request error path (api.ts lines 12-28)

`request` does, in order:
```
const text = await res.text();
const data = text ? JSON.parse(text) : null;
if (!res.ok) { const msg = data?.error || `HTTP ${res.status}`; throw new Error(msg); }
return data as T;
```
The response body is abstracted to the three shapes that distinguish the
control flow: empty text (`data = null`), text that parses as JSON (of
which only the optional string `error` field is relevant), and non-empty
text that is not valid JSON (`JSON.parse` throws before the `ok` check). -/

/-- Shape of the HTTP response body as seen by `request`. -/
inductive BodyShape
  /-- the body text is empty, so `data = null` -/
  | emptyBody : BodyShape
  /-- the body parses as JSON; `errField` is its `error` field when that
  field is present with a string value -/
  | jsonBody (errField : Option String) : BodyShape
  /-- the body is non-empty and `JSON.parse` throws on it -/
  | invalidJson : BodyShape
deriving DecidableEq, Repr

/-- How a `request` call can fail. -/
inductive RequestFailure
  /-- `throw new Error(msg)` on a non-ok status -/
  | apiError (msg : String) : RequestFailure
  /-- a `SyntaxError` propagated out of `JSON.parse(text)` -/
  | jsonParseError : RequestFailure
deriving DecidableEq, Repr

/-- JS `a || b` for a possibly-undefined string `a`: the fallback `b` is
used when `a` is `undefined` or the (falsy) empty string. -/
def jsOrStr (a : Option String) (b : String) : String :=
  match a with
  | some s => if s = "" then b else s
  | none => b

/-- Embedding of the body-handling and error path of `request`
(api.ts lines 21-27).  Input: `ok` and `status` of the response and the
body shape; output: either the parsed data (`none` for a null body, `some
errField` standing for the parsed object) or the failure.  `JSON.parse`
runs before the `ok` check, so an unparseable body throws a `SyntaxError`
for every status. -/
def requestOutcome (ok : Bool) (status : Nat) (body : BodyShape) :
    Except RequestFailure (Option (Option String)) :=
  match body with
  | BodyShape.invalidJson => Except.error RequestFailure.jsonParseError
  | BodyShape.emptyBody =>
    if !ok then
      Except.error (RequestFailure.apiError (jsOrStr none ("HTTP " ++ toString status)))
    else Except.ok none
  | BodyShape.jsonBody errField =>
    if !ok then
      Except.error (RequestFailure.apiError (jsOrStr errField ("HTTP " ++ toString status)))
    else Except.ok (some errField)

/-! ### Data model (App.tsx lines 7-26) -/

/-- Device `status` field (App.tsx line 14). -/
inductive DeviceStatus
  | ACTIVE | OFFLINE | REINSTALLED
deriving DecidableEq, Repr

/-- The `lastLocation` object of a `Device` (App.tsx line 15). -/
structure LastLocation where
  lat : Rat
  lng : Rat
  address : Option String := none
  timestamp : Option String := none
deriving DecidableEq, Repr

/-- The `Device` record (App.tsx lines 7-16). -/
structure Device where
  deviceId : String
  deviceName : String
  model : String
  osVersion : String
  installDate : String
  lastSeen : Option String := none
  status : DeviceStatus
  lastLocation : Option LastLocation := none
deriving DecidableEq, Repr

/-- The `LocationLog` record (App.tsx lines 18-26).  The leading
underscore of `_id` is dropped for Lean. -/
structure LocationLog where
  id : String
  deviceId : String
  lat : Rat
  lng : Rat
  address : Option String := none
  timestamp : String
  createdAt : String
deriving DecidableEq, Repr

/-- Summary counters (App.tsx line 42). -/
structure Summary where
  total : Nat
  online : Nat
  offline : Nat
deriving DecidableEq, Repr

/-- The `useState` cells of `App` that the verified claims touch
(App.tsx lines 36-50), together with the persisted `localStorage`. -/
structure AppState where
  storage : Store
  token : Option String
  error : Option String := none
  summary : Option Summary := none
  devices : List Device := []
  selected : Option Device := none
  locationLogs : List LocationLog := []
  selectedLocation : Option LocationLog := none
  loadingLogs : Bool := false

/-! ### logout (App.tsx lines 106-113) -/

/-- Embedding of `logout`: `setToken(null); setTokenState(null);
setDevices([]); setSelected(null); setLocationLogs([]);
setSelectedLocation(null);` — one synchronous block with no `await`. -/
def logout (s : AppState) : AppState :=
  { s with
    storage := setToken s.storage none
    token := none
    devices := []
    selected := none
    locationLogs := []
    selectedLocation := none }

/-! ### loadLocationLogs (App.tsx lines 115-131) and the selection effect
(App.tsx lines 133-140)

`loadLocationLogs` is split at its single `await`: `loadLocationLogsStart`
is the synchronous prefix (`setLoadingLogs(true); setSelectedLocation(null)`)
that runs before `api.getLocationLogs` is issued, and
`loadLocationLogsFinish` is the continuation applied to the fetch result
(the `try`/`catch`/`finally` tail). -/

/-- Synchronous prefix of `loadLocationLogs`, executed before the
location-log fetch is issued. -/
def loadLocationLogsStart (s : AppState) : AppState :=
  { s with loadingLogs := true, selectedLocation := none }

/-- Continuation of `loadLocationLogs` on the fetch result.  On success:
`setLocationLogs(logs); if (logs.length > 0) setSelectedLocation(logs[0])`.
On error: `setError(...); setLocationLogs([])`.  Finally:
`setLoadingLogs(false)`. -/
def loadLocationLogsFinish (s : AppState) (result : Except String (List LocationLog)) :
    AppState :=
  match result with
  | Except.ok logs =>
    let s1 := { s with locationLogs := logs }
    let s2 := match logs with
      | l :: _ => { s1 with selectedLocation := some l }
      | [] => s1
    { s2 with loadingLogs := false }
  | Except.error msg =>
    { s with error := some msg, locationLogs := [], loadingLogs := false }

/-- Embedding of the `useEffect` on `selected?.deviceId` (App.tsx lines
133-140) together with the `setSelected` it reacts to: the selection is
updated and then the synchronous part of the effect body runs.  For a
selected device this is `loadLocationLogsStart` (the fetch itself has not
resolved yet); for a deselection, logs and active location are reset. -/
def selectDevice (s : AppState) (d : Option Device) : AppState :=
  let s1 := { s with selected := d }
  match d with
  | some _ => loadLocationLogsStart s1
  | none => { s1 with locationLogs := [], selectedLocation := none }

/-! ### MapPreview props (App.tsx lines 300-307)

`<MapPreview lat={selectedLocation?.lat || selected.lastLocation?.lat} ...>`
Each prop independently takes the selected log's field when that field is
truthy and falls back to the device's `lastLocation` field otherwise. -/

/-- JS `a || b` for possibly-undefined numbers: falls back when `a` is
`undefined` or the falsy `0`. -/
def jsOrNum (a b : Option Rat) : Option Rat :=
  match a with
  | some x => if x = 0 then b else some x
  | none => b

/-- JS `a || b` for two possibly-undefined strings: falls back when `a`
is `undefined` or the falsy empty string. -/
def jsOrOptStr (a b : Option String) : Option String :=
  match a with
  | some s => if s = "" then b else some s
  | none => b

/-- The four props handed to `MapPreview` (App.tsx lines 301-306). -/
structure MapProps where
  lat : Option Rat
  lng : Option Rat
  timestamp : Option String
  address : Option String
deriving DecidableEq, Repr

/-- Embedding of the prop computation at the `MapPreview` call site:
field-by-field `||` fallback from the selected location to the selected
device's `lastLocation`. -/
def mapPreviewProps (selLoc : Option LocationLog) (lastLoc : Option LastLocation) :
    MapProps :=
  { lat := jsOrNum (selLoc.map (fun l => l.lat)) (lastLoc.map (fun l => l.lat))
    lng := jsOrNum (selLoc.map (fun l => l.lng)) (lastLoc.map (fun l => l.lng))
    timestamp := jsOrOptStr (selLoc.map (fun l => l.timestamp)) (lastLoc.bind (fun l => l.timestamp))
    address := jsOrOptStr (selLoc.bind (fun l => l.address)) (lastLoc.bind (fun l => l.address)) }

/-! ### Debounced search (App.tsx lines 54-74)

```
useEffect(() => {
  if (!authed) return;
  const t = setTimeout(() => load().catch(() => {}), 350);
  return () => clearTimeout(t);
}, [q, since, until]);
```
Every change of the search inputs re-runs this effect: the cleanup clears
the timer armed by the previous run, and a fresh 350-unit timer is armed
for the new input state.  A timer that reaches its deadline fires `load()`,
which issues one `listDevices` call with the then-current inputs (equal to
the inputs of the change that armed it, since any later change would have
cleared it first).  The trace of input changes is modelled as a list of
(time, query) pairs with nondecreasing times; the timer armed at time `t`
is cleared exactly when the next change happens strictly before `t + 350`
(at `t + 350` or later it has already fired and `clearTimeout` is a
no-op). -/

/-- The three search inputs of `App` (`q`, `since`, `until`),
App.tsx lines 43-45. -/
structure SearchQuery where
  q : String
  since : String
  untilD : String
deriving DecidableEq, Repr

/-- Queries sent by the timers of a trace of input changes, in order.
Derived from the effect/cleanup pair: the timer of a change at time `t`
issues its `listDevices` call with that change's query unless the next
change arrives strictly within the `window`, in which case `clearTimeout`
cancels it; the last change's timer always fires once the input stays
quiet. -/
def debounceCalls (window : Nat) : List (Nat × SearchQuery) → List SearchQuery
  | [] => []
  | (t, qv) :: rest =>
    match rest with
    | [] => [qv]
    | (t2, _) :: _ =>
      (if t2 < t + window then [] else [qv]) ++ debounceCalls window rest

/-- Decides that every two consecutive changes of a trace are separated by
less than `window` time units. -/
def gapsWithin (window : Nat) : List (Nat × SearchQuery) → Bool
  | (t1, _) :: (t2, q2) :: rest =>
    decide (t2 < t1 + window) && gapsWithin window ((t2, q2) :: rest)
  | _ => true

/-! ### In-flight search requests racing (App.tsx lines 54-61)

`load()` ends in `setDevices(devices)` with no request identifier, no
staleness check and no cancellation: whenever one of its fetches resolves,
its payload is written to the device-list state unconditionally.  A run of
overlapping searches is modelled as a list of events: `issue` marks a
`listDevices` request being sent (which by itself changes no state), and
`resolve` marks one of the outstanding requests resolving, at which point
the continuation of that `load()` call runs `setDevices`. -/

/-- Events in a run of overlapping `listDevices` requests. -/
inductive SearchEvent
  /-- request number `id` with query text `q` is sent -/
  | issue (id : Nat) (q : String) : SearchEvent
  /-- request number `id` resolves with payload `devices`, and the
  continuation of its `load()` call executes `setDevices(devices)` -/
  | resolve (id : Nat) (devices : List Device) : SearchEvent
deriving Repr

/-- Effect of one event on the app state: `resolve` runs
`setDevices(devices)` unconditionally — `load` never checks whether a
newer request has been issued meanwhile. -/
def applySearchEvent (s : AppState) (e : SearchEvent) : AppState :=
  match e with
  | SearchEvent.issue _ _ => s
  | SearchEvent.resolve _ ds => { s with devices := ds }

/-- Effect of a whole run of events. -/
def runSearchEvents (s : AppState) (evs : List SearchEvent) : AppState :=
  evs.foldl applySearchEvent s

/-- Characterisation used by the amended latest-request-wins claim: the
payload of the last `resolve` event of a run, or `d` if no request ever
resolved. -/
def lastResolvedDevices (evs : List SearchEvent) (d : List Device) : List Device :=
  (evs.filterMap (fun e => match e with
    | SearchEvent.resolve _ ds => some ds
    | SearchEvent.issue _ _ => none)).getLastD d

/-! ### SHA-256 and the device fingerprint (src/lib/fingerprint)

`getDeviceFingerprint` joins six ambient signals with `"|"` and feeds the
UTF-8 bytes through `crypto.subtle.digest("SHA-256", ...)`; `sha256Hex`
then hex-encodes the 32-byte digest with `b.toString(16).padStart(2, "0")`
per byte.  The platform digest is embedded as the full FIPS 180-4 SHA-256
algorithm over byte lists, with 32-bit words carried as `Nat` reduced
modulo `2 ^ 32`. -/

/-- Reduction of a `Nat` to a 32-bit word value. -/
def wordMod (x : Nat) : Nat := x % 4294967296

/-- Right rotation of a 32-bit word by `n` places. -/
def rotr32 (n x : Nat) : Nat := wordMod ((x >>> n) ||| (x <<< (32 - n)))

/-- Bitwise complement of a 32-bit word. -/
def bnot32 (x : Nat) : Nat := x ^^^ 4294967295

/-- SHA-256 Σ0. -/
def bigSigma0 (x : Nat) : Nat := rotr32 2 x ^^^ rotr32 13 x ^^^ rotr32 22 x

/-- SHA-256 Σ1. -/
def bigSigma1 (x : Nat) : Nat := rotr32 6 x ^^^ rotr32 11 x ^^^ rotr32 25 x

/-- SHA-256 σ0. -/
def smallSigma0 (x : Nat) : Nat := rotr32 7 x ^^^ rotr32 18 x ^^^ (x >>> 3)

/-- SHA-256 σ1. -/
def smallSigma1 (x : Nat) : Nat := rotr32 17 x ^^^ rotr32 19 x ^^^ (x >>> 10)

/-- The 64 SHA-256 round constants of FIPS 180-4, in decimal. -/
def sha256K : List Nat :=
  [1116352408, 1899447441, 3049323471, 3921009573, 961987163,
   1508970993, 2453635748, 2870763221, 3624381080, 310598401,
   607225278, 1426881987, 1925078388, 2162078206, 2614888103,
   3248222580, 3835390401, 4022224774, 264347078, 604807628,
   770255983, 1249150122, 1555081692, 1996064986, 2554220882,
   2821834349, 2952996808, 3210313671, 3336571891, 3584528711,
   113926993, 338241895, 666307205, 773529912, 1294757372,
   1396182291, 1695183700, 1986661051, 2177026350, 2456956037,
   2730485921, 2820302411, 3259730800, 3345764771, 3516065817,
   3600352804, 4094571909, 275423344, 430227734, 506948616,
   659060556, 883997877, 958139571, 1322822218, 1537002063,
   1747873779, 1955562222, 2024104815, 2227730452, 2361852424,
   2428436474, 2756734187, 3204031479, 3329325298]

/-- The eight 32-bit words of a SHA-256 hash state. -/
structure Hash8 where
  a : Nat
  b : Nat
  c : Nat
  d : Nat
  e : Nat
  f : Nat
  g : Nat
  h : Nat
deriving DecidableEq, Repr

/-- The SHA-256 initial hash value of FIPS 180-4, in decimal. -/
def sha256H0 : Hash8 :=
  ⟨1779033703, 3144134277, 1013904242, 2773480762,
   1359893119, 2600822924, 528734635, 1541459225⟩

/-- SHA-256 padding of a byte message: append `0x80`, zero bytes up to 56
mod 64, then the bit length as 8 big-endian bytes. -/
def padMessage (msg : List Nat) : List Nat :=
  let bitLen := msg.length * 8
  let zeros := (119 - msg.length % 64) % 64
  msg ++ 0x80 :: (List.replicate zeros 0 ++
    (List.range 8).map (fun i => (bitLen >>> (8 * (7 - i))) % 256))

/-- Cuts a list into 64-byte chunks; the fuel argument bounds the
recursion by the length of the list. -/
def chunksAux : Nat → List Nat → List (List Nat)
  | 0, _ => []
  | _, [] => []
  | fuel + 1, l => l.take 64 :: chunksAux fuel (l.drop 64)

/-- The 64-byte chunks of a padded message. -/
def chunks (l : List Nat) : List (List Nat) := chunksAux l.length l

/-- The 16 big-endian 32-bit words of one 64-byte chunk. -/
def toWords (chunk : List Nat) : List Nat :=
  (List.range 16).map (fun i =>
    (chunk.getD (4 * i) 0) * 16777216 + (chunk.getD (4 * i + 1) 0) * 65536 +
    (chunk.getD (4 * i + 2) 0) * 256 + chunk.getD (4 * i + 3) 0)

/-- Extension of the 16 message words to the 64-entry message schedule. -/
def extendSchedule (w : List Nat) : List Nat :=
  (List.range 48).foldl (fun acc j =>
    let i := j + 16
    acc ++ [wordMod (smallSigma1 (acc.getD (i - 2) 0) + acc.getD (i - 7) 0 +
                     smallSigma0 (acc.getD (i - 15) 0) + acc.getD (i - 16) 0)]) w

/-- One SHA-256 compression round; `kw` is the pair of round constant and
schedule word. -/
def compressStep (st : Hash8) (kw : Nat × Nat) : Hash8 :=
  let ch := (st.e &&& st.f) ^^^ (bnot32 st.e &&& st.g)
  let maj := (st.a &&& st.b) ^^^ (st.a &&& st.c) ^^^ (st.b &&& st.c)
  let t1 := wordMod (st.h + bigSigma1 st.e + ch + kw.1 + kw.2)
  let t2 := wordMod (bigSigma0 st.a + maj)
  ⟨wordMod (t1 + t2), st.a, st.b, st.c, wordMod (st.d + t1), st.e, st.f, st.g⟩

/-- Processing of one 64-byte chunk into the running hash. -/
def compressChunk (h0 : Hash8) (chunk : List Nat) : Hash8 :=
  let w := extendSchedule (toWords chunk)
  let st := (sha256K.zip w).foldl compressStep h0
  ⟨wordMod (h0.a + st.a), wordMod (h0.b + st.b), wordMod (h0.c + st.c), wordMod (h0.d + st.d),
   wordMod (h0.e + st.e), wordMod (h0.f + st.f), wordMod (h0.g + st.g), wordMod (h0.h + st.h)⟩

/-- The final SHA-256 hash state of a byte message. -/
def sha256Words (msg : List Nat) : Hash8 :=
  (chunks (padMessage msg)).foldl compressChunk sha256H0

/-- Big-endian serialisation of one 32-bit word to 4 bytes. -/
def wordBytes (w : Nat) : List Nat :=
  [(w >>> 24) % 256, (w >>> 16) % 256, (w >>> 8) % 256, w % 256]

/-- The 32-byte SHA-256 digest of a byte message, the model of
`new Uint8Array(await crypto.subtle.digest("SHA-256", enc))`. -/
def sha256Bytes (msg : List Nat) : List Nat :=
  let hh := sha256Words msg
  wordBytes hh.a ++ wordBytes hh.b ++ wordBytes hh.c ++ wordBytes hh.d ++
  wordBytes hh.e ++ wordBytes hh.f ++ wordBytes hh.g ++ wordBytes hh.h

/-- A hex digit character as produced by `n.toString(16)` for one nibble:
`0`-`9` then `a`-`f`. -/
def hexDigitChar (n : Nat) : Char :=
  if n < 10 then Char.ofNat (48 + n) else Char.ofNat (87 + n)

/-- The two characters of `b.toString(16).padStart(2, "0")` for one byte
`b < 256`. -/
def byteHexChars (b : Nat) : List Char :=
  [hexDigitChar (b / 16), hexDigitChar (b % 16)]

/-- Embedding of `sha256Hex` (fingerprint source, lines 59-66): digest the
bytes and hex-encode the result, joining with the empty string. -/
def sha256Hex (msg : List Nat) : String :=
  String.mk ((sha256Bytes msg).flatMap byteHexChars)

/-- The six ambient signals read by `getDeviceFingerprint`; `none` models
an `undefined` browser property. -/
structure AmbientSignals where
  userAgent : Option String
  language : Option String
  hardwareConcurrency : Option Nat
  deviceMemory : Option Nat
  screenWidth : Nat
  screenHeight : Nat
  timeZone : Option String
deriving DecidableEq, Repr

/-- JS `String(x || "")` for a possibly-undefined number `x`: both
`undefined` and the falsy `0` yield the empty string. -/
def jsNumSignalString : Option Nat → String
  | none => ""
  | some n => if n = 0 then "" else toString n

/-- The ordered signal list of `getDeviceFingerprint` (fingerprint source,
lines 70-77). -/
def fingerprintParts (sig : AmbientSignals) : List String :=
  [sig.userAgent.getD "",
   sig.language.getD "",
   jsNumSignalString sig.hardwareConcurrency,
   jsNumSignalString sig.deviceMemory,
   toString sig.screenWidth ++ "x" ++ toString sig.screenHeight,
   sig.timeZone.getD ""]

/-- UTF-8 bytes of a string, the model of `new TextEncoder().encode`. -/
def utf8Bytes (s : String) : List Nat := s.toUTF8.toList.map (fun b => b.toNat)

/-- Embedding of `getDeviceFingerprint`: join the signals with `"|"` and
return the SHA-256 digest of the UTF-8 bytes, hex-encoded. -/
def getDeviceFingerprint (sig : AmbientSignals) : String :=
  sha256Hex (utf8Bytes (String.intercalate "|" (fingerprintParts sig)))

/-! ### Concrete fixtures used by counterexamples and witnesses -/

/-- An empty `localStorage`. -/
def exampleStore : Store := fun _ => none

/-- A concrete location log of device `D1` (most recent). -/
def exampleLog1 : LocationLog :=
  { id := "L1", deviceId := "D1", lat := 3, lng := 4,
    timestamp := "2024-01-02T00:00:00Z", createdAt := "2024-01-02T00:00:01Z" }

/-- A second concrete location log of device `D1`. -/
def exampleLog2 : LocationLog :=
  { id := "L2", deviceId := "D1", lat := 5, lng := 6,
    timestamp := "2024-01-01T00:00:00Z", createdAt := "2024-01-01T00:00:01Z" }

/-- A concrete device. -/
def exampleDevice1 : Device :=
  { deviceId := "D1", deviceName := "Phone 1", model := "M1", osVersion := "14",
    installDate := "2024-01-01", status := DeviceStatus.ACTIVE }

/-- A second concrete device, distinct from `exampleDevice1`. -/
def exampleDevice2 : Device :=
  { deviceId := "D2", deviceName := "Phone 2", model := "M2", osVersion := "15",
    installDate := "2024-02-01", status := DeviceStatus.OFFLINE }

/-- An authenticated app state in which device `D1` is selected and its
two location logs are loaded with `L1` active. -/
def exampleState1 : AppState :=
  { storage := exampleStore, token := some "tok",
    devices := [exampleDevice1, exampleDevice2],
    selected := some exampleDevice1,
    locationLogs := [exampleLog1, exampleLog2],
    selectedLocation := some exampleLog1 }

/-- A freshly authenticated app state with no devices loaded. -/
def exampleState0 : AppState := { storage := exampleStore, token := some "tok" }

/-! ### Claim theorems -/

/-- C7, counterexample: the claim asserts that after `write(t)` every
subsequent `read()` returns `t` for every token string `t`, but for the
empty string `setToken` takes the falsy branch (`!token`), removes the
slot, and `getToken` then returns `null` rather than `""`. -/
theorem C7_counterexample :
    getToken (setToken exampleStore (some "")) = none ∧
    getToken (setToken exampleStore (some "")) ≠ some "" := by
  constructor <;> decide

/-- C7, amended: the session store round-trips every nonempty token —
after `write(t)` with `t ≠ ""`, `read()` returns `t`; `write(null)` and
`write("")` both clear the slot so `read()` returns `null`; and both
writes touch only the single fixed slot `"adminToken"` (here witnessed on
the distinct key `"otherKey"`), which is what makes the value survive a
reload of the page. -/
theorem C7_round_trip (s : Store) (t : String) :
    getToken (setToken s (some t)) = (if t = "" then none else some t) ∧
    getToken (setToken s none) = none ∧
    setToken s (some t) "otherKey" = s "otherKey" ∧
    setToken s none "otherKey" = s "otherKey" := by
  refine ⟨?_, ?_, ?_, ?_⟩ <;>
    by_cases ht : t = "" <;>
      simp [getToken, setToken, Store.getItem, Store.setItem, Store.removeItem, ht]

/-- C2, counterexample: the claim asserts the call never fails other than
with the `error`-field message or `HTTP <status>`, but `JSON.parse` runs
before the `ok` check, so a non-success response with a non-empty body
that is not valid JSON fails with the propagated `SyntaxError`, not with
`HTTP 500`. -/
theorem C2_counterexample :
    requestOutcome false 500 BodyShape.invalidJson =
      Except.error RequestFailure.jsonParseError ∧
    requestOutcome false 500 BodyShape.invalidJson ≠
      Except.error (RequestFailure.apiError "HTTP 500") := by
  refine ⟨rfl, ?_⟩
  simp [requestOutcome]

/-- C2, amended: on a non-success status, a parseable body with a
non-empty `error` field yields that message; an empty body, or a
parseable body whose `error` field is absent or empty, yields the generic
`HTTP <status>` message; but a non-empty body that is not parseable as
JSON makes the call fail by propagating the JSON parse exception — for
every status, success included. -/
theorem C2_request_error_cases (status : Nat) (e : String) :
    requestOutcome false status BodyShape.emptyBody =
      Except.error (RequestFailure.apiError ("HTTP " ++ toString status)) ∧
    requestOutcome false status (BodyShape.jsonBody none) =
      Except.error (RequestFailure.apiError ("HTTP " ++ toString status)) ∧
    requestOutcome false status (BodyShape.jsonBody (some e)) =
      Except.error (RequestFailure.apiError
        (if e = "" then "HTTP " ++ toString status else e)) ∧
    requestOutcome false status BodyShape.invalidJson =
      Except.error RequestFailure.jsonParseError ∧
    requestOutcome true status BodyShape.invalidJson =
      Except.error RequestFailure.jsonParseError := by
  refine ⟨rfl, rfl, ?_, rfl, rfl⟩
  by_cases he : e = "" <;> simp [requestOutcome, jsOrStr, he]

/-- C9: `logout` is a single synchronous block that clears all five
pieces of state — the persisted token slot, the in-memory token, the
device list, the device selection, the location-log list and the active
location — leaving each in its empty or null state, whatever state it
was in before. -/
theorem C9_logout_clears_state (s : AppState) :
    getToken (logout s).storage = none ∧
    (logout s).token = none ∧
    (logout s).devices = [] ∧
    (logout s).selected = none ∧
    (logout s).locationLogs = [] ∧
    (logout s).selectedLocation = none := by
  refine ⟨?_, rfl, rfl, rfl, rfl, rfl⟩
  simp [logout, getToken, setToken, Store.getItem, Store.removeItem]

/-- C1, counterexample: the claim asserts that on a selection change the
prior device's location-log list is cleared synchronously before the new
fetch begins, but the effect body only sets the loading flag and clears
the active location; with device `D1`'s logs loaded, selecting `D2`
leaves the log-list state still holding `D1`'s two entries (its rendered
entry count included) until the new fetch resolves. -/
theorem C1_counterexample :
    (selectDevice exampleState1 (some exampleDevice2)).locationLogs
      = [exampleLog1, exampleLog2] ∧
    (selectDevice exampleState1 (some exampleDevice2)).locationLogs ≠ [] ∧
    (selectDevice exampleState1 (some exampleDevice2)).selected = some exampleDevice2 := by
  refine ⟨rfl, ?_, rfl⟩
  decide

/-- C1, amended: selecting a device synchronously — before the
location-log fetch is issued — clears the prior device's active location
and raises the loading flag (which suppresses rendering of the log-list
body), but the location-log list itself is not cleared: it keeps the
previously fetched device's entries until the new fetch resolves. -/
theorem C1_selection_sync (s : AppState) (d : Device) :
    (selectDevice s (some d)).selectedLocation = none ∧
    (selectDevice s (some d)).loadingLogs = true ∧
    (selectDevice s (some d)).locationLogs = s.locationLogs :=
  ⟨rfl, rfl, rfl⟩

/-- C4: when the location-log fetch succeeds with a non-empty list, the
list is stored exactly in the server-provided order, its first entry
becomes the active location, and the loading flag is dropped; in
particular for logs `[L1, L2]` the active location is `L1`. -/
theorem C4_loaded_order_and_autoselect (s : AppState) (l : LocationLog)
    (rest : List LocationLog) :
    (loadLocationLogsFinish (loadLocationLogsStart s) (Except.ok (l :: rest))).locationLogs
      = l :: rest ∧
    (loadLocationLogsFinish (loadLocationLogsStart s) (Except.ok (l :: rest))).selectedLocation
      = some l ∧
    (loadLocationLogsFinish (loadLocationLogsStart s) (Except.ok (l :: rest))).loadingLogs
      = false :=
  ⟨rfl, rfl, rfl⟩

/-- C5: when the location-log fetch returns an empty list or fails, the
log list is empty, no log entry is selected, the loading flag is dropped
(so a failure never leaves the UI in the Loading state), and with no
selected log entry the props handed to the map are exactly the selected
device's `lastLocation` fields whenever a `lastLocation` exists. -/
theorem C5_empty_or_failed_fallback (s : AppState) (msg : String) (ll : LastLocation) :
    (loadLocationLogsFinish (loadLocationLogsStart s) (Except.ok [])).locationLogs = [] ∧
    (loadLocationLogsFinish (loadLocationLogsStart s) (Except.ok [])).selectedLocation = none ∧
    (loadLocationLogsFinish (loadLocationLogsStart s) (Except.ok [])).loadingLogs = false ∧
    (loadLocationLogsFinish (loadLocationLogsStart s) (Except.error msg)).locationLogs = [] ∧
    (loadLocationLogsFinish (loadLocationLogsStart s) (Except.error msg)).selectedLocation = none ∧
    (loadLocationLogsFinish (loadLocationLogsStart s) (Except.error msg)).loadingLogs = false ∧
    mapPreviewProps none (some ll) =
      { lat := some ll.lat, lng := some ll.lng,
        timestamp := ll.timestamp, address := ll.address } :=
  ⟨rfl, rfl, rfl, rfl, rfl, rfl, rfl⟩

/-- A log entry whose latitude is the falsy `0` but whose longitude is
not, used to exhibit coordinate mixing. -/
def zeroLatLog : LocationLog :=
  { id := "L0", deviceId := "D1", lat := 0, lng := 5,
    timestamp := "2024-01-03T00:00:00Z", createdAt := "2024-01-03T00:00:01Z" }

/-- A device `lastLocation` at latitude 1, longitude 2. -/
def lastLoc12 : LastLocation := { lat := 1, lng := 2 }

/-- C10: each `MapPreview` prop falls back field-by-field with JS `||`
semantics — the selected log entry's field is used only when truthy
(nonzero number, nonempty string; for `address` also present at all),
otherwise the device's `lastLocation` field is used; consequently a
selected entry with `lat = 0` and `lng = 5` over a `lastLocation` of
`(1, 2)` renders at latitude 1 from `lastLocation` and longitude 5 from
the entry, mixing the two sources. -/
theorem C10_falsy_field_fallback (log : LocationLog) (ll : LastLocation) :
    (mapPreviewProps (some log) (some ll)).lat
      = (if log.lat = 0 then some ll.lat else some log.lat) ∧
    (mapPreviewProps (some log) (some ll)).lng
      = (if log.lng = 0 then some ll.lng else some log.lng) ∧
    (mapPreviewProps (some log) (some ll)).timestamp
      = (if log.timestamp = "" then ll.timestamp else some log.timestamp) ∧
    (mapPreviewProps (some log) (some ll)).address
      = (if log.address = none ∨ log.address = some "" then ll.address else log.address) ∧
    (mapPreviewProps (some zeroLatLog) (some lastLoc12)).lat = some 1 ∧
    (mapPreviewProps (some zeroLatLog) (some lastLoc12)).lng = some 5 := by
  refine ⟨rfl, rfl, rfl, ?_, ?_, ?_⟩
  · rcases ha : log.address with _ | a
    · simp [mapPreviewProps, jsOrOptStr, ha]
    · by_cases he : a = "" <;> simp [mapPreviewProps, jsOrOptStr, ha, he]
  · decide
  · decide

/-- An interleaving in which request 1 (query `"a"`) is issued, request 2
(query `"ab"`) is issued while 1 is still in flight, request 2 resolves
first, and request 1 resolves last. -/
def raceEvents : List SearchEvent :=
  [SearchEvent.issue 1 "a", SearchEvent.issue 2 "ab",
   SearchEvent.resolve 2 [exampleDevice2], SearchEvent.resolve 1 [exampleDevice1]]

/-- C8, counterexample: the claim asserts latest-request-wins, but `load`
writes `setDevices` with no request identifier or staleness check, so
when the older request 1 resolves after the newer request 2 its payload
`[exampleDevice1]` overwrites the device list that request 2 had set to
`[exampleDevice2]`. -/
theorem C8_counterexample :
    (runSearchEvents exampleState0 raceEvents).devices = [exampleDevice1] ∧
    [exampleDevice1] ≠ [exampleDevice2] := by
  refine ⟨rfl, ?_⟩
  decide

/-- C8, amended: there is no latest-request-wins guard — whichever
`listDevices` request resolves last determines the device list
(last-resolution-wins), regardless of issue order; the list equals the
payload of the last resolved request of the run, or the prior list when
none resolved. -/
theorem C8_last_resolution_wins (s : AppState) (evs : List SearchEvent) :
    (runSearchEvents s evs).devices = lastResolvedDevices evs s.devices := by
  induction evs generalizing s with
  | nil => rfl
  | cons e evs ih =>
    cases e with
    | issue id q =>
      simpa [runSearchEvents, lastResolvedDevices, applySearchEvent] using ih s
    | resolve id ds =>
      have h := ih { s with devices := ds }
      simp only [runSearchEvents, lastResolvedDevices, List.filterMap_cons, List.foldl_cons,
        applySearchEvent, List.getLastD_cons] at h ⊢
      exact h

/-- C3: for every nonempty trace of search-input changes whose
consecutive changes are all separated by less than the debounce window,
exactly one `listDevices` call is issued once the input goes quiet, and
its query is the last input state of the trace — every earlier change's
pending timer is cancelled by the next change and never issues a
request. -/
theorem C3_debounce_single_call (window t : Nat) (qv : SearchQuery)
    (rest : List (Nat × SearchQuery))
    (hgaps : gapsWithin window ((t, qv) :: rest) = true) :
    debounceCalls window ((t, qv) :: rest) = [(rest.getLastD (t, qv)).2] := by
  induction rest generalizing t qv with
  | nil => rfl
  | cons p rest ih =>
    obtain ⟨t2, q2⟩ := p
    rw [gapsWithin] at hgaps
    rw [Bool.and_eq_true, decide_eq_true_eq] at hgaps
    rw [debounceCalls, if_pos hgaps.1, List.nil_append, List.getLastD_cons]
    exact ih t2 q2 hgaps.2

/-- The trace of the spec's debounce example: inputs `"a"`, `"ab"`,
`"abc"` fired 50 time units apart. -/
def debounceTrace : List (Nat × SearchQuery) :=
  [(0, ⟨"a", "", ""⟩), (50, ⟨"ab", "", ""⟩), (100, ⟨"abc", "", ""⟩)]

/-- C3, witness: on the concrete trace `"a"`, `"ab"`, `"abc"` at times 0,
50, 100 with window 350, exactly one call is issued and its query text is
`"abc"`. -/
theorem C3_witness :
    debounceCalls 350 debounceTrace = [⟨"abc", "", ""⟩] := by
  have h := C3_debounce_single_call 350 0 ⟨"a", "", ""⟩
    [(50, ⟨"ab", "", ""⟩), (100, ⟨"abc", "", ""⟩)] (by decide)
  simpa using h

/-- Recogniser for lowercase hexadecimal digit characters. -/
def isLowerHexDigit (c : Char) : Bool := "0123456789abcdef".toList.contains c

/-- Every byte of a serialised word is below 256. -/
theorem wordBytes_lt (w : Nat) : ∀ b ∈ wordBytes w, b < 256 := by
  intro b hb
  simp only [wordBytes, List.mem_cons, List.not_mem_nil, or_false] at hb
  rcases hb with rfl | rfl | rfl | rfl <;> exact Nat.mod_lt _ (by norm_num)

/-- The SHA-256 digest always has exactly 32 bytes. -/
theorem sha256Bytes_length (msg : List Nat) : (sha256Bytes msg).length = 32 := by
  simp [sha256Bytes, wordBytes]

/-- Every byte of the SHA-256 digest is below 256. -/
theorem sha256Bytes_lt (msg : List Nat) : ∀ b ∈ sha256Bytes msg, b < 256 := by
  intro b hb
  simp only [sha256Bytes, List.mem_append] at hb
  rcases hb with ((((((h | h) | h) | h) | h) | h) | h) | h <;> exact wordBytes_lt _ _ h

/-- Hex encoding of a nibble lands in the lowercase hex alphabet. -/
theorem hexDigitChar_lowerHex : ∀ n, n < 16 → isLowerHexDigit (hexDigitChar n) = true := by
  decide

/-- Length of the hex encoding of a byte list. -/
theorem length_flatMap_byteHexChars (l : List Nat) :
    (l.flatMap byteHexChars).length = 2 * l.length := by
  induction l with
  | nil => rfl
  | cons b l ih =>
    simp only [List.flatMap_cons, List.length_append, List.length_cons, ih, byteHexChars,
      List.length_nil]
    omega

/-- Every character of a SHA-256 hex digest is a lowercase hex digit. -/
theorem sha256Hex_chars (msg : List Nat) :
    ((sha256Hex msg).toList.all isLowerHexDigit) = true := by
  rw [List.all_eq_true]
  intro c hc
  have hc2 : c ∈ (sha256Bytes msg).flatMap byteHexChars := hc
  rcases List.mem_flatMap.1 hc2 with ⟨b, hb, hcb⟩
  have hblt : b < 256 := sha256Bytes_lt msg b hb
  simp only [byteHexChars, List.mem_cons, List.not_mem_nil, or_false] at hcb
  rcases hcb with rfl | rfl
  · exact hexDigitChar_lowerHex (b / 16) (by omega)
  · exact hexDigitChar_lowerHex (b % 16) (Nat.mod_lt _ (by norm_num))

/-- C6: the fingerprint is a pure function of the six ambient signals —
the same signals yield the identical digest on every call — and its
output is a 64-character string consisting solely of lowercase
hexadecimal digits. -/
theorem C6_fingerprint_deterministic_hex (sig : AmbientSignals) :
    getDeviceFingerprint sig = getDeviceFingerprint sig ∧
    (getDeviceFingerprint sig).length = 64 ∧
    ((getDeviceFingerprint sig).toList.all isLowerHexDigit) = true := by
  refine ⟨rfl, ?_, sha256Hex_chars _⟩
  have h1 : (getDeviceFingerprint sig).length =
      ((sha256Bytes (utf8Bytes (String.intercalate "|" (fingerprintParts sig)))).flatMap
        byteHexChars).length := rfl
  rw [h1, length_flatMap_byteHexChars, sha256Bytes_length]

end HomeSecurity
